import Mathlib

/-!
Verification of the version-filter scripts of the PyKritaAPI documentation
site.  Two controllers are embedded: the selector controller of the outer
index document (src/unnamed/part_000) and the frame filter controller of the
embedded class document (src/res/filter-classes.js).  JavaScript loose
equality, the abstract relational comparison together with the ToNumber
coercion of null and undefined, DOM class mutation and window messages are
modelled explicitly.
-/

namespace KritaDoc

/-- JavaScript values that occur in the filter scripts: getAttribute yields a
string or null, and a missing message field or argument reads as undefined. -/
inductive JsVal where
  | undef : JsVal
  | null : JsVal
  | str : String → JsVal
deriving DecidableEq, Repr

/-- A finite number written in decimal scientific form, the exact value
mant times ten to the exp.  Every number the StringNumericLiteral grammar
denotes has this shape.  The IEEE rounding of JavaScript numbers is not
modelled; the scripts only compare these values against zero or NaN, and
rounding to a float preserves every such comparison. -/
structure Dec10 where
  mant : ℤ
  exp : ℤ
deriving DecidableEq, Repr

/-- Order on the values denoted by two decimal scientific forms: both sides
are brought to the smaller exponent and the mantissas compared. -/
def dec10Lt (a b : Dec10) : Bool :=
  let m := min a.exp b.exp
  decide (a.mant * ((10 ^ (a.exp - m).toNat : ℕ) : ℤ) <
    b.mant * ((10 ^ (b.exp - m).toNat : ℕ) : ℤ))

/-- JavaScript numbers as produced by ToNumber on the values above. -/
inductive JsNum where
  | nan : JsNum
  | posInf : JsNum
  | negInf : JsNum
  | num : Dec10 → JsNum
deriving DecidableEq, Repr

/-- Characters stripped from the ends of a string by ToNumber
(ECMAScript StrWhiteSpaceChar: WhiteSpace and LineTerminator). -/
def jsWhitespace (c : Char) : Bool :=
  decide (c.toNat ∈ ([9, 10, 11, 12, 13, 32, 0xA0, 0x1680, 0x2028, 0x2029,
      0x202F, 0x205F, 0x3000, 0xFEFF] : List ℕ) ∨
    (0x2000 ≤ c.toNat ∧ c.toNat ≤ 0x200A))

/-- Numeric value of a list of decimal digit characters. -/
def natOfDigits (l : List Char) : ℕ :=
  l.foldl (fun n c => 10 * n + (c.toNat - 48)) 0

/-- Test for a hexadecimal digit character. -/
def isHexDigit (c : Char) : Bool :=
  decide (('0' ≤ c ∧ c ≤ '9') ∨ ('a' ≤ c ∧ c ≤ 'f') ∨ ('A' ≤ c ∧ c ≤ 'F'))

/-- Test for an octal digit character. -/
def isOctDigit (c : Char) : Bool := decide ('0' ≤ c ∧ c ≤ '7')

/-- Test for a binary digit character. -/
def isBinDigit (c : Char) : Bool := decide (c = '0' ∨ c = '1')

/-- Numeric value of one digit character in any radix up to 16. -/
def digitVal (c : Char) : ℕ :=
  if c ≤ '9' then c.toNat - 48 else if c ≤ 'F' then c.toNat - 55 else c.toNat - 87

/-- Numeric value of a list of digit characters in the given radix. -/
def natOfRadix (r : ℕ) (l : List Char) : ℕ :=
  l.foldl (fun n c => r * n + digitVal c) 0

/-- Parse the exponent part after the letter e: an optional sign and then at
least one digit, consuming the whole input. -/
def parseExponent : List Char → Option ℤ
  | [] => none
  | '+' :: l => if l ≠ [] ∧ l.all Char.isDigit then some (natOfDigits l : ℤ) else none
  | '-' :: l => if l ≠ [] ∧ l.all Char.isDigit then some (-(natOfDigits l : ℤ)) else none
  | l => if l.all Char.isDigit then some (natOfDigits l : ℤ) else none

/-- Value of an unsigned decimal literal with integer part, fraction part and
decimal exponent: the digits of both parts form the mantissa and the
exponent is lowered by the length of the fraction part. -/
def decValue (ip fp : List Char) (exp : ℤ) : Dec10 :=
  ⟨(natOfDigits ip * 10 ^ fp.length + natOfDigits fp : ℕ), exp - fp.length⟩

/-- Parse an unsigned decimal literal (digits, an optional dot with more
digits, and an optional exponent), consuming the whole input. -/
def parseUnsignedDec (l : List Char) : Option Dec10 :=
  let ip := l.takeWhile Char.isDigit
  match l.dropWhile Char.isDigit with
  | [] => if ip = [] then none else some (decValue ip [] 0)
  | '.' :: r2 =>
    let fp := r2.takeWhile Char.isDigit
    if ip = [] ∧ fp = [] then none
    else
      match r2.dropWhile Char.isDigit with
      | [] => some (decValue ip fp 0)
      | 'e' :: r4 => (parseExponent r4).map (decValue ip fp)
      | 'E' :: r4 => (parseExponent r4).map (decValue ip fp)
      | _ => none
  | 'e' :: r4 => if ip = [] then none else (parseExponent r4).map (decValue ip [])
  | 'E' :: r4 => if ip = [] then none else (parseExponent r4).map (decValue ip [])
  | _ => none

/-- Parse a non-decimal integer literal (hexadecimal, octal or binary),
consuming the whole input. -/
def parseNonDec : List Char → Option Dec10
  | '0' :: 'x' :: r => if r ≠ [] ∧ r.all isHexDigit then some ⟨natOfRadix 16 r, 0⟩ else none
  | '0' :: 'X' :: r => if r ≠ [] ∧ r.all isHexDigit then some ⟨natOfRadix 16 r, 0⟩ else none
  | '0' :: 'o' :: r => if r ≠ [] ∧ r.all isOctDigit then some ⟨natOfRadix 8 r, 0⟩ else none
  | '0' :: 'O' :: r => if r ≠ [] ∧ r.all isOctDigit then some ⟨natOfRadix 8 r, 0⟩ else none
  | '0' :: 'b' :: r => if r ≠ [] ∧ r.all isBinDigit then some ⟨natOfRadix 2 r, 0⟩ else none
  | '0' :: 'B' :: r => if r ≠ [] ∧ r.all isBinDigit then some ⟨natOfRadix 2 r, 0⟩ else none
  | _ => none

/-- Parse an unsigned decimal literal or the Infinity keyword. -/
def parseUnsignedMain (l : List Char) : Option JsNum :=
  if l = "Infinity".data then some .posInf
  else (parseUnsignedDec l).map .num

/-- ECMAScript ToNumber applied to a string (the StringNumericLiteral
grammar): surrounding whitespace is stripped, the empty remainder is zero,
and anything unparsable is NaN. -/
def strToNumber (s : String) : JsNum :=
  let l := ((s.data.dropWhile jsWhitespace).reverse.dropWhile jsWhitespace).reverse
  match l with
  | [] => .num ⟨0, 0⟩
  | '+' :: r => (parseUnsignedMain r).getD .nan
  | '-' :: r =>
    match parseUnsignedMain r with
    | some .posInf => .negInf
    | some (.num q) => .num ⟨-q.mant, q.exp⟩
    | _ => .nan
  | _ =>
    match parseNonDec l with
    | some q => .num q
    | none => (parseUnsignedMain l).getD .nan

/-- JavaScript numeric less-than; none models the undefined result produced
by a NaN operand. -/
def jsNumLt : JsNum → JsNum → Option Bool
  | .nan, _ => none
  | .posInf, y => match y with | .nan => none | _ => some false
  | .negInf, y => match y with | .nan => none | .negInf => some false | _ => some true
  | .num p, y =>
    match y with
    | .nan => none
    | .posInf => some true
    | .negInf => some false
    | .num q => some (dec10Lt p q)

/-- ToNumber on the modelled values: undefined is NaN and null is zero. -/
def JsVal.toNumber : JsVal → JsNum
  | .undef => .nan
  | .null => .num ⟨0, 0⟩
  | .str s => strToNumber s

/-- Lexicographic less-than on character lists, as JavaScript compares
strings (by code units; identical to code points on the characters these
scripts compare). -/
def charListLt : List Char → List Char → Bool
  | _, [] => false
  | [], _ :: _ => true
  | a :: as, b :: bs =>
    if a.val < b.val then true else if b.val < a.val then false else charListLt as bs

/-- JavaScript string less-than. -/
def strLt (a b : String) : Bool := charListLt a.data b.data

/-- ECMAScript abstract relational comparison of two primitive values; none
models the undefined result. -/
def jsLtVal (x y : JsVal) : Option Bool :=
  match x, y with
  | .str a, .str b => some (strLt a b)
  | x, y => jsNumLt x.toNumber y.toNumber

/-- JavaScript a lower-or-equal b: true exactly when the comparison of b
against a yields false (so NaN operands make it false). -/
def jsLe (a b : JsVal) : Bool := jsLtVal b a == some false

/-- JavaScript loose equality restricted to the value shapes the scripts
compare: strings compare by content, undefined and null equal each other and
themselves, and neither equals any string. -/
def jsEq (a b : JsVal) : Bool :=
  match a, b with
  | .str a, .str b => a == b
  | .undef, .undef => true
  | .null, .null => true
  | .undef, .null => true
  | .null, .undef => true
  | _, _ => false

/-- Truthiness of the delta argument: a boolean from the selector interface,
or undefined (falsy) when the message field is absent. -/
def jsTruthy : Option Bool → Bool
  | none => false
  | some b => b

/-- Result of getAttribute as a JS value: null when the attribute is absent. -/
def attrVal : Option String → JsVal
  | none => .null
  | some s => .str s

/-- A version argument as a JS value: undefined when the field is absent. -/
def verVal : Option String → JsVal
  | none => .undef
  | some s => .str s

/-- A DOM element as the filter scripts see it: whether its tag is li, its
two optional version attributes, and whether its class list carries the
hidden class. -/
structure Elem where
  isLi : Bool
  first : Option String
  last : Option String
  hidden : Bool
deriving DecidableEq, Repr

/-- An element matched by the frame controller's attribute query, which
selects every element carrying data-version-first or data-version-last. -/
def Elem.tagged (e : Elem) : Bool := e.first.isSome || e.last.isSome

/-- An element matched by the selector controller's query, which restricts
the same attribute test to li elements. -/
def Elem.liTagged (e : Elem) : Bool := e.isLi && e.tagged

/-- Per-element show expression of filterApply in res/filter-classes.js
(lines 19 to 29): exact loose equality against the two attributes in delta
mode, otherwise the master test or a relational comparison of each attribute
against the version. -/
def frameShow (version : Option String) (delta : Option Bool)
    (first last : Option String) : Bool :=
  if jsTruthy delta then
    jsEq (verVal version) (attrVal first) || jsEq (verVal version) (attrVal last)
  else
    jsEq (verVal version) (.str "master") || jsLe (attrVal first) (verVal version) ||
      jsLe (attrVal last) (verVal version)

/-- filterClear of res/filter-classes.js: remove the hidden class from every
element matched by the attribute query. -/
def frame_filterClear (doc : List Elem) : List Elem :=
  doc.map fun e => if e.tagged then { e with hidden := false } else e

/-- filterApply of res/filter-classes.js: for every matched element compute
show and set or remove the hidden class accordingly. -/
def frame_filterApply (version : Option String) (delta : Option Bool)
    (doc : List Elem) : List Elem :=
  doc.map fun e =>
    if e.tagged then { e with hidden := !frameShow version delta e.first e.last } else e

/-- A window message payload; none fields read as undefined. -/
structure Msg where
  method : Option String
  version : Option String := none
  delta : Option Bool := none
deriving DecidableEq, Repr

/-- Message handler of res/filter-classes.js (lines 40 to 47): dispatch on
the method field, ignoring anything unrecognized. -/
def frame_onMessage (m : Msg) (doc : List Elem) : List Elem :=
  if m.method == some "filterClear" then frame_filterClear doc
  else if m.method == some "filterApply" then frame_filterApply m.version m.delta doc
  else doc

/-- Per-element show expression of filterApply in the index script
(src/unnamed/part_000, lines 22 to 32); textually the same computation as in
the frame script. -/
def selectorShow (version : Option String) (delta : Option Bool)
    (first last : Option String) : Bool :=
  if jsTruthy delta then
    jsEq (verVal version) (attrVal first) || jsEq (verVal version) (attrVal last)
  else
    jsEq (verVal version) (.str "master") || jsLe (attrVal first) (verVal version) ||
      jsLe (attrVal last) (verVal version)

/-- filterClear of the index script: post a filterClear message to the
embedded frame, then unhide every matched li element. -/
def selector_filterClear (doc : List Elem) : List Elem × List Msg :=
  (doc.map fun e => if e.liTagged then { e with hidden := false } else e,
   [{ method := some "filterClear" }])

/-- filterApply of the index script: post the filter to the embedded frame,
then apply it to every matched li element. -/
def selector_filterApply (version : Option String) (delta : Option Bool)
    (doc : List Elem) : List Elem × List Msg :=
  (doc.map fun e =>
      if e.liTagged then { e with hidden := !selectorShow version delta e.first e.last }
      else e,
   [{ method := some "filterApply", version := version, delta := delta }])

/-- Mutable state of the outer index document as used by the index script:
its element list, the value of the tags select control, the disabled and
checked flags of the viewModeDelta checkbox, whether the viewModeDeltaLbl
label carries the hidden class, and whether the readystatechange handler has
already assigned the change handler of the select control. -/
structure SelectorState where
  doc : List Elem
  tagsValue : String
  deltaDisabled : Bool
  deltaChecked : Bool
  lblHidden : Bool
  onchangeBound : Bool
deriving DecidableEq, Repr

/-- The update closure defined inside the readystatechange handler of the
index script (lines 47 to 59): on master, clear then apply; otherwise enable
the checkbox, reveal its label and apply.  The effective delta is the
conjunction of the checkbox being enabled and checked. -/
def selector_update (st : SelectorState) : SelectorState × List Msg :=
  if st.tagsValue == "master" then
    let r1 := selector_filterClear st.doc
    let r2 := selector_filterApply (some st.tagsValue)
      (some ((!st.deltaDisabled) && st.deltaChecked)) r1.1
    ({ st with doc := r2.1 }, r1.2 ++ r2.2)
  else
    let st1 : SelectorState := { st with deltaDisabled := false, lblHidden := false }
    let r2 := selector_filterApply (some st1.tagsValue)
      (some ((!st1.deltaDisabled) && st1.deltaChecked)) st1.doc
    ({ st1 with doc := r2.1 }, r2.2)

/-- readystatechange handler of the index script: it defines the update
closure and binds the change handlers of the select control and of the
checkbox; it performs no initial update itself. -/
def selector_onReadyStateChange (st : SelectorState) : SelectorState :=
  { st with onchangeBound := true }

/-- Errors the scripts can raise. -/
inductive JsError where
  | typeError : JsError
deriving DecidableEq, Repr

/-- Message handler of the index script (lines 65 to 70): on getFilter it
invokes the onchange property of the select control, which runs update when
the readystatechange handler has bound it.  Modelled from the spec: the
generated HTML (produced by the excluded generator, not under src/) attaches
no inline change handler, so before binding the property is null and calling
it raises a TypeError, aborting the handler with no state change and no
outgoing message. -/
def selector_onMessage (m : Msg) (st : SelectorState) :
    Except JsError (SelectorState × List Msg) :=
  if m.method == some "getFilter" then
    if st.onchangeBound then .ok (selector_update st)
    else .error .typeError
  else .ok (st, [])

/-- A local filter invocation, used to describe document states reachable by
prior filter calls. -/
inductive FilterOp where
  | clear : FilterOp
  | apply : Option String → Option Bool → FilterOp
deriving DecidableEq, Repr

/-- Run one filter invocation on the frame document. -/
def frameRunOp : FilterOp → List Elem → List Elem
  | .clear, doc => frame_filterClear doc
  | .apply v d, doc => frame_filterApply v d doc

/-- Run a sequence of filter invocations on the frame document. -/
def frameRun (ops : List FilterOp) (doc : List Elem) : List Elem :=
  ops.foldl (fun d o => frameRunOp o d) doc

/-- Run one filter invocation on the index document. -/
def selectorRunOp : FilterOp → List Elem → List Elem
  | .clear, doc => (selector_filterClear doc).1
  | .apply v d, doc => (selector_filterApply v d doc).1

/-- Run a sequence of filter invocations on the index document. -/
def selectorRun (ops : List FilterOp) (doc : List Elem) : List Elem :=
  ops.foldl (fun d o => selectorRunOp o d) doc

/-- Any comparison against the undefined version is false: its ToNumber is
NaN, so the abstract relational comparison yields the undefined result. -/
theorem jsLe_undef (a : JsVal) : jsLe a .undef = false := by
  cases a <;> rfl

/-- The tagged test ignores the hidden flag. -/
theorem tagged_set_hidden (e : Elem) (b : Bool) :
    Elem.tagged { e with hidden := b } = e.tagged := rfl

/-- The query test of the index script ignores the hidden flag. -/
theorem liTagged_set_hidden (e : Elem) (b : Bool) :
    Elem.liTagged { e with hidden := b } = e.liTagged := rfl

/-- Setting the hidden flag keeps the first attribute. -/
theorem first_set_hidden (e : Elem) (b : Bool) :
    (({ e with hidden := b } : Elem)).first = e.first := rfl

/-- Setting the hidden flag keeps the last attribute. -/
theorem last_set_hidden (e : Elem) (b : Bool) :
    (({ e with hidden := b } : Elem)).last = e.last := rfl

/-- Setting the hidden flag twice keeps only the second value. -/
theorem set_hidden_twice (e : Elem) (b c : Bool) :
    ({ ({ e with hidden := b } : Elem) with hidden := c } : Elem) =
      { e with hidden := c } := rfl

/-- Setting the hidden flag keeps the tag kind. -/
theorem isLi_set_hidden (e : Elem) (b : Bool) :
    (({ e with hidden := b } : Elem)).isLi = e.isLi := rfl

/-- An element matched by the index-script query is an li element. -/
theorem liTagged_isLi {e : Elem} (h : e.liTagged = true) : e.isLi = true := by
  have h2 := h
  rw [Elem.liTagged, Bool.and_eq_true] at h2
  exact h2.1

/-- C8: the per-element show computation of the index script and the one of
the frame script are extensionally equal, so under the same version and
delta both documents compute the same visibility for an element carrying the
same attributes. -/
theorem selectorShow_eq_frameShow (version : Option String) (delta : Option Bool)
    (first last : Option String) :
    selectorShow version delta first last = frameShow version delta first last := rfl

/-- C6: filterApply is idempotent in both controllers: applying the same
version and delta twice in a row leaves the same hidden assignment as
applying it once. -/
theorem filterApply_idempotent (version : Option String) (delta : Option Bool)
    (doc : List Elem) :
    frame_filterApply version delta (frame_filterApply version delta doc) =
      frame_filterApply version delta doc ∧
    (selector_filterApply version delta
        (selector_filterApply version delta doc).1).1 =
      (selector_filterApply version delta doc).1 := by
  constructor
  · unfold frame_filterApply
    rw [List.map_map]
    apply List.map_congr_left
    intro e _
    simp only [Function.comp_apply]
    cases hq : e.tagged with
    | false => simp [hq]
    | true =>
      simp [hq, tagged_set_hidden, first_set_hidden, last_set_hidden, set_hidden_twice]
  · unfold selector_filterApply
    rw [List.map_map]
    apply List.map_congr_left
    intro e _
    simp only [Function.comp_apply]
    cases hq : e.liTagged with
    | false => simp [hq]
    | true =>
      simp [hq, liTagged_set_hidden, first_set_hidden, last_set_hidden, set_hidden_twice]

/-- C7: an element carrying neither version attribute is never touched:
clear and apply of both controllers leave it exactly as it was. -/
theorem untagged_untouched (version : Option String) (delta : Option Bool)
    (doc : List Elem) (i : ℕ) (e : Elem)
    (he : doc[i]? = some e) (ht : e.tagged = false) :
    (frame_filterClear doc)[i]? = some e ∧
    (frame_filterApply version delta doc)[i]? = some e ∧
    ((selector_filterClear doc).1)[i]? = some e ∧
    ((selector_filterApply version delta doc).1)[i]? = some e := by
  have hli : e.liTagged = false := by simp [Elem.liTagged, ht]
  refine ⟨?_, ?_, ?_, ?_⟩ <;>
    simp [frame_filterClear, frame_filterApply, selector_filterClear,
      selector_filterApply, List.getElem?_map, he, ht, hli]

/-- Witness for C7 at a concrete untagged element. -/
theorem untagged_untouched_witness :
    Elem.tagged ⟨true, none, none, true⟩ = false ∧
    (frame_filterClear [⟨true, none, none, true⟩])[0]? = some ⟨true, none, none, true⟩ ∧
    (frame_filterApply (some "1.2") (some false)
        [⟨true, none, none, true⟩])[0]? = some ⟨true, none, none, true⟩ ∧
    ((selector_filterClear [⟨true, none, none, true⟩]).1)[0]? =
      some ⟨true, none, none, true⟩ ∧
    ((selector_filterApply (some "1.2") (some false)
        [⟨true, none, none, true⟩]).1)[0]? = some ⟨true, none, none, true⟩ := by
  refine ⟨by decide, ?_⟩
  exact untagged_untouched (some "1.2") (some false) [⟨true, none, none, true⟩] 0
    ⟨true, none, none, true⟩ (by rfl) (by decide)

/-- C10: a filterApply message carrying neither version nor delta makes the
frame run filterApply with both undefined: the absent delta is falsy, every
comparison against the undefined version is false, and every tagged element
of the frame document ends hidden. -/
theorem filterApply_undefined_hides_all (doc : List Elem) :
    frame_onMessage { method := some "filterApply" } doc =
      doc.map fun e => if e.tagged then { e with hidden := true } else e := by
  have h : frame_onMessage { method := some "filterApply" } doc =
      frame_filterApply none none doc := rfl
  rw [h, frame_filterApply]
  apply List.map_congr_left
  intro e _
  have hs : frameShow none none e.first e.last = false := by
    simp [frameShow, jsTruthy, verVal, jsEq, jsLe_undef]
  simp [hs]

/-- Auxiliary invariant: filter invocations of the index script never touch
an element that is not an li, so a non-li tagged element that starts visible
stays visible through any run. -/
theorem selectorRun_nonLi_invariant (ops : List FilterOp) (doc : List Elem)
    (h : ∀ e ∈ doc, e.isLi = false → e.tagged = true → e.hidden = false) :
    ∀ e ∈ selectorRun ops doc, e.isLi = false → e.tagged = true → e.hidden = false := by
  induction ops generalizing doc with
  | nil => simpa [selectorRun] using h
  | cons o ops ih =>
    have hstep : ∀ e ∈ selectorRunOp o doc,
        e.isLi = false → e.tagged = true → e.hidden = false := by
      intro e he hli ht
      cases o with
      | clear =>
        rw [selectorRunOp] at he
        obtain ⟨a, ha, rfl⟩ := List.mem_map.1 he
        cases hq : a.liTagged with
        | true => simp [hq]
        | false =>
          simp [hq] at hli ht ⊢
          exact h a ha hli ht
      | apply v d =>
        rw [selectorRunOp] at he
        obtain ⟨a, ha, rfl⟩ := List.mem_map.1 he
        cases hq : a.liTagged with
        | true =>
          exfalso
          have hL := liTagged_isLi hq
          simp [hq, isLi_set_hidden, hL] at hli
        | false =>
          simp [hq] at hli ht ⊢
          exact h a ha hli ht
    exact ih (selectorRunOp o doc) hstep

/-- C5: starting from a document whose tagged elements are all visible and
applying any sequence of local filter invocations, a final filterClear
leaves no tagged element hidden, in the frame document and in the index
document alike. -/
theorem filterClear_restores_all (ops : List FilterOp) (doc : List Elem)
    (h : ∀ e ∈ doc, e.tagged = true → e.hidden = false) :
    (∀ e ∈ frame_filterClear (frameRun ops doc), e.tagged = true → e.hidden = false) ∧
    (∀ e ∈ (selector_filterClear (selectorRun ops doc)).1,
      e.tagged = true → e.hidden = false) := by
  constructor
  · intro e he ht
    rw [frame_filterClear] at he
    obtain ⟨a, ha, rfl⟩ := List.mem_map.1 he
    cases hq : a.tagged with
    | true => simp [hq]
    | false => simp [hq] at ht
  · intro e he ht
    have hinv := selectorRun_nonLi_invariant ops doc (fun a ha hli hta => h a ha hta)
    have he2 : e ∈ (selectorRun ops doc).map
        (fun a => if a.liTagged then { a with hidden := false } else a) := he
    obtain ⟨a, ha, rfl⟩ := List.mem_map.1 he2
    cases hq : a.liTagged with
    | true => simp [hq]
    | false =>
      simp [hq] at ht ⊢
      have hli : a.isLi = false := by
        cases hL : a.isLi with
        | false => rfl
        | true => rw [Elem.liTagged, hL, Bool.true_and] at hq; rw [hq] at ht; exact absurd ht (by simp)
      exact hinv a ha hli ht

/-- Witness for C5 at a concrete document and invocation sequence. -/
theorem filterClear_restores_all_witness :
    (∀ e ∈ ([⟨true, some "1.0", none, false⟩] : List Elem),
      e.tagged = true → e.hidden = false) ∧
    (∀ e ∈ frame_filterClear (frameRun [FilterOp.apply (some "2.0") (some true)]
        [⟨true, some "1.0", none, false⟩]), e.tagged = true → e.hidden = false) ∧
    (∀ e ∈ (selector_filterClear (selectorRun [FilterOp.apply (some "2.0") (some true)]
        [⟨true, some "1.0", none, false⟩])).1, e.tagged = true → e.hidden = false) := by
  refine ⟨by decide, ?_⟩
  exact filterClear_restores_all [FilterOp.apply (some "2.0") (some true)]
    [⟨true, some "1.0", none, false⟩] (by decide)

/-- C9: a message whose method is not one of the strings its receiver
recognizes is a no-op: the frame handler returns the document unchanged, and
the index handler returns its state unchanged with no outgoing message and
no error. -/
theorem unrecognized_method_noop (m : Msg) (doc : List Elem) (st : SelectorState) :
    (m.method ≠ some "filterClear" → m.method ≠ some "filterApply" →
      frame_onMessage m doc = doc) ∧
    (m.method ≠ some "getFilter" → selector_onMessage m st = .ok (st, [])) := by
  constructor
  · intro h1 h2
    simp [frame_onMessage, h1, h2]
  · intro h3
    simp [selector_onMessage, h3]

/-- Witness for C9 at a concrete unrecognized message. -/
theorem unrecognized_method_noop_witness :
    frame_onMessage ⟨some "ping", none, none⟩ [⟨true, some "1.0", none, true⟩] =
      [⟨true, some "1.0", none, true⟩] ∧
    selector_onMessage ⟨some "ping", none, none⟩ ⟨[], "1.0", false, false, false, true⟩ =
      .ok (⟨[], "1.0", false, false, false, true⟩, []) := by
  constructor
  · exact (unrecognized_method_noop ⟨some "ping", none, none⟩
      [⟨true, some "1.0", none, true⟩] ⟨[], "1.0", false, false, false, true⟩).1
      (by decide) (by decide)
  · exact (unrecognized_method_noop ⟨some "ping", none, none⟩
      [⟨true, some "1.0", none, true⟩] ⟨[], "1.0", false, false, false, true⟩).2
      (by decide)

/-- C2 fails as stated: a getFilter message arriving before the
readystatechange handler has bound the change handler makes the index
message handler invoke the null onchange property, which raises a TypeError
instead of completing silently. -/
theorem getFilter_unbound_throws_example :
    selector_onMessage { method := some "getFilter" }
      { doc := [], tagsValue := "master", deltaDisabled := false,
        deltaChecked := false, lblHidden := true, onchangeBound := false } =
      .error .typeError := rfl

/-- C2 amended: before the change handler is bound, a getFilter message
makes the index message handler abort with a TypeError; the aborted handler
performs no document change and sends no message. -/
theorem getFilter_unbound_drops (st : SelectorState) (h : st.onchangeBound = false) :
    selector_onMessage { method := some "getFilter" } st = .error .typeError := by
  simp [selector_onMessage, h]

/-- Witness for the amended C2 at a concrete unbound state. -/
theorem getFilter_unbound_drops_witness :
    SelectorState.onchangeBound ⟨[], "1.0", false, true, false, false⟩ = false ∧
    selector_onMessage { method := some "getFilter" }
        ⟨[], "1.0", false, true, false, false⟩ = .error .typeError :=
  ⟨rfl, getFilter_unbound_drops ⟨[], "1.0", false, true, false, false⟩ rfl⟩

/-- C3 fails as stated: in the index document a hidden element that carries
the attributes but is not an li stays hidden in delta mode even though the
version equals its first attribute, because the query only matches li
elements. -/
theorem delta_nonLi_stays_hidden_example :
    (selector_filterApply (some "1.0") (some true)
        [⟨false, some "1.0", some "1.2", true⟩]).1 =
      [⟨false, some "1.0", some "1.2", true⟩] := rfl

/-- C3 amended: in delta mode an element matched by the controller's query
(every tagged element of the frame document, every li tagged element of the
index document) ends visible exactly when the version string equals its
first or its last attribute. -/
theorem filterApply_delta_exact (v : String) (doc : List Elem) (i : ℕ) (e : Elem)
    (he : doc[i]? = some e) :
    (e.tagged = true →
      (frame_filterApply (some v) (some true) doc)[i]? =
        some { e with hidden := !(some v == e.first || some v == e.last) }) ∧
    (e.liTagged = true →
      ((selector_filterApply (some v) (some true) doc).1)[i]? =
        some { e with hidden := !(some v == e.first || some v == e.last) }) := by
  have h1 : frameShow (some v) (some true) e.first e.last =
      (some v == e.first || some v == e.last) := by
    cases e.first <;> cases e.last <;> rfl
  have h2 : selectorShow (some v) (some true) e.first e.last =
      (some v == e.first || some v == e.last) := by
    cases e.first <;> cases e.last <;> rfl
  constructor <;> intro ht <;>
    simp [frame_filterApply, selector_filterApply, List.getElem?_map, he, ht, h1, h2]

/-- Witness for the amended C3 at a concrete element whose first attribute
equals the version. -/
theorem filterApply_delta_exact_witness :
    Elem.tagged ⟨true, some "1.0", some "1.2", true⟩ = true ∧
    (frame_filterApply (some "1.0") (some true)
        [⟨true, some "1.0", some "1.2", true⟩])[0]? =
      some ⟨true, some "1.0", some "1.2", false⟩ := by
  refine ⟨by decide, ?_⟩
  exact ((filterApply_delta_exact "1.0" [⟨true, some "1.0", some "1.2", true⟩] 0
    ⟨true, some "1.0", some "1.2", true⟩ rfl).1 (by decide)).trans (by decide)

/-- C4 fails as stated: in the index document a hidden tagged element that
is not an li stays hidden after filterApply master, because the query only
matches li elements. -/
theorem master_nonLi_stays_hidden_example :
    (selector_filterApply (some "master") (some false)
        [⟨false, some "1.0", none, true⟩]).1 = [⟨false, some "1.0", none, true⟩] := rfl

/-- C4 amended: filterApply master with delta false unhides every element
the controller's query matches, regardless of its attribute values and of
its prior state: every tagged element of the frame document and every li
tagged element of the index document end visible. -/
theorem filterApply_master_shows (doc : List Elem) (i : ℕ) (e : Elem)
    (he : doc[i]? = some e) :
    (e.tagged = true →
      (frame_filterApply (some "master") (some false) doc)[i]? =
        some { e with hidden := false }) ∧
    (e.liTagged = true →
      ((selector_filterApply (some "master") (some false) doc).1)[i]? =
        some { e with hidden := false }) := by
  have h1 : frameShow (some "master") (some false) e.first e.last = true := rfl
  have h2 : selectorShow (some "master") (some false) e.first e.last = true := rfl
  constructor <;> intro ht <;>
    simp [frame_filterApply, selector_filterApply, List.getElem?_map, he, ht, h1, h2]

/-- Witness for the amended C4 at a concrete hidden element with attributes
that match no ordering rule. -/
theorem filterApply_master_shows_witness :
    Elem.tagged ⟨true, some "9.9", some "0.1", true⟩ = true ∧
    Elem.liTagged ⟨true, some "9.9", some "0.1", true⟩ = true ∧
    (frame_filterApply (some "master") (some false)
        [⟨true, some "9.9", some "0.1", true⟩])[0]? =
      some ⟨true, some "9.9", some "0.1", false⟩ ∧
    ((selector_filterApply (some "master") (some false)
        [⟨true, some "9.9", some "0.1", true⟩]).1)[0]? =
      some ⟨true, some "9.9", some "0.1", false⟩ := by
  refine ⟨by decide, by decide, ?_, ?_⟩
  · exact ((filterApply_master_shows [⟨true, some "9.9", some "0.1", true⟩] 0
      ⟨true, some "9.9", some "0.1", true⟩ rfl).1 (by decide)).trans (by decide)
  · exact ((filterApply_master_shows [⟨true, some "9.9", some "0.1", true⟩] 0
      ⟨true, some "9.9", some "0.1", true⟩ rfl).2 (by decide)).trans (by decide)

/-- C1 fails as stated: with version 1.2 in cumulative mode, the frame
controller reveals an element carrying first 2.0 and no last attribute,
although the claim says it is hidden: getAttribute yields null for the
missing attribute, and the JavaScript relational comparison coerces null and
the version to numbers, zero against 1.2, instead of comparing
lexicographically. -/
theorem cumulative_missing_attr_example :
    frame_filterApply (some "1.2") (some false)
        [⟨true, some "2.0", none, true⟩] = [⟨true, some "2.0", none, false⟩] := by decide

/-- C1 amended: in cumulative mode an element matched by the controller's
query ends visible exactly when the version is master, or one of its
attribute values passes the JavaScript relational comparison against the
version: lexicographic when the attribute is present, and numeric coercion
of null when it is absent, which holds exactly when the version string
parses as a nonnegative number. -/
theorem filterApply_cumulative_rule (v : String) (doc : List Elem) (i : ℕ) (e : Elem)
    (he : doc[i]? = some e) :
    (e.tagged = true →
      (frame_filterApply (some v) (some false) doc)[i]? =
        some { e with hidden := !((v == "master") || jsLe (attrVal e.first) (.str v) ||
          jsLe (attrVal e.last) (.str v)) }) ∧
    (e.liTagged = true →
      ((selector_filterApply (some v) (some false) doc).1)[i]? =
        some { e with hidden := !((v == "master") || jsLe (attrVal e.first) (.str v) ||
          jsLe (attrVal e.last) (.str v)) }) := by
  have h1 : frameShow (some v) (some false) e.first e.last =
      ((v == "master") || jsLe (attrVal e.first) (.str v) ||
        jsLe (attrVal e.last) (.str v)) := rfl
  have h2 : selectorShow (some v) (some false) e.first e.last =
      ((v == "master") || jsLe (attrVal e.first) (.str v) ||
        jsLe (attrVal e.last) (.str v)) := rfl
  constructor <;> intro ht <;>
    simp [frame_filterApply, selector_filterApply, List.getElem?_map, he, ht, h1, h2]

/-- Witness for the amended C1 at the corrected concrete example: version
1.2, first 2.0 and no last attribute give a visible element. -/
theorem filterApply_cumulative_rule_witness :
    Elem.tagged ⟨true, some "2.0", none, true⟩ = true ∧
    (frame_filterApply (some "1.2") (some false)
        [⟨true, some "2.0", none, true⟩])[0]? = some ⟨true, some "2.0", none, false⟩ := by
  refine ⟨by decide, ?_⟩
  exact ((filterApply_cumulative_rule "1.2" [⟨true, some "2.0", none, true⟩] 0
    ⟨true, some "2.0", none, true⟩ rfl).1 (by decide)).trans (by decide)

end KritaDoc
